import Mathlib

/-!
Shallow embedding of the AI-chatbot backend (NestJS/TypeScript) for
verification of its specification.

The embedding covers:
* `AiProviderService.streamChat` (src/modules/chat/ai-provider.service.ts):
  the translation of role-tagged chat messages into the vendor (Gemini)
  format, the system-prompt handling, and the history/prompt split.
* `ChatService` (chat.service.ts): `streamResponse` and
  `deleteConversation` over an explicit store of conversation and message
  rows, with the vendor stream abstracted as a list of yielded fragments
  (successful completion) or a yielded prefix followed by an error.
* `ChatController.streamMessage` (chat.controller.ts): the SSE loop that
  forwards fragments and checks a client-disconnect flag.
* `UsersService.register` and `UsersService.handleActivateAccount`
  (users.service.ts) over a list of user rows.

Timestamps (`new Date()`, `dayjs()`, `@CreateDateColumn`) are modelled as
natural numbers (milliseconds); each store write in a single service call
uses a strictly later tick, matching the sequential awaits in the source.
-/

/-! ### Generative-response adapter: `AiProviderService.streamChat` -/

/-- A `{role, content}` message as handed to `streamChat`. -/
structure ChatMessage where
  role : String
  content : String
deriving Repr, DecidableEq

/-- A Gemini-format message `{role, parts: [{text}]}`; the singleton
`parts` array is collapsed to its one `text` field. -/
structure GeminiMessage where
  role : String
  text : String
deriving Repr, DecidableEq

/-- Role translation from `streamChat`:
`msg.role === 'assistant' ? 'model' : msg.role === 'system' ? 'user' : msg.role`. -/
def mapRole (r : String) : String :=
  if r = "assistant" then "model" else if r = "system" then "user" else r

/-- `geminiMessages = messages.map(...)` from `streamChat`. -/
def geminiMessages (msgs : List ChatMessage) : List GeminiMessage :=
  msgs.map (fun m => ⟨mapRole m.role, m.content⟩)

/-- `systemPrompt` from `streamChat`: the contents of all `system`-role
input messages joined with `'\n'` and suffixed with `'\n\n'`, or `""`
when there are none. -/
def systemPrompt (msgs : List ChatMessage) : String :=
  let sys := msgs.filter (fun m => m.role = "system")
  if sys.length > 0 then
    String.intercalate "\n" (sys.map (fun m => m.content)) ++ "\n\n"
  else ""

/-- `filteredMessages` from `streamChat`: filter `geminiMessages` by
`m.role !== 'system'`, then prepend `systemPrompt` to the first entry
when it has role `user` and the prompt is non-empty (JS truthiness of
the non-empty string). Note the filter runs on the already role-mapped
`geminiMessages`. -/
def filteredMessages (msgs : List ChatMessage) : List GeminiMessage :=
  ((geminiMessages msgs).filter (fun m => m.role ≠ "system")).mapIdx
    (fun idx m =>
      if idx = 0 ∧ m.role = "user" ∧ systemPrompt msgs ≠ "" then
        { m with text := systemPrompt msgs ++ m.text }
      else m)

/-- `history: filteredMessages.slice(0, -1)` passed to `startChat`. -/
def vendorHistory (msgs : List ChatMessage) : List GeminiMessage :=
  (filteredMessages msgs).dropLast

/-- `prompt = lastMessage?.parts[0]?.text || ''` passed to
`sendMessageStream`; the `|| ''` maps a missing last message, and an
empty last text, to `""`. -/
def vendorPrompt (msgs : List ChatMessage) : String :=
  match (filteredMessages msgs).getLast? with
  | some m => if m.text = "" then "" else m.text
  | none => ""

/-- C1 — The adapter does not place the combined system content exactly
once on the first non-system message: on input
`[{system, "S"}, {user, "U"}]` the vendor-facing sequence keeps the
system message (remapped to role `user`), prepends the system prompt to
that remapped system message itself, and leaves the first non-system
message `"U"` untouched — rather than producing the single-prepend
sequence `[{user, "S\n\nU"}]`. -/
theorem streamChat_system_prompt_misplaced :
    filteredMessages [⟨"system", "S"⟩, ⟨"user", "U"⟩] =
      [⟨"user", "S\n\nS"⟩, ⟨"user", "U"⟩] ∧
    filteredMessages [⟨"system", "S"⟩, ⟨"user", "U"⟩] ≠
      [⟨"user", "S\n\nU"⟩] := by
  constructor
  · rfl
  · decide

/-- C2 — System messages are not removed from the vendor-facing
sequence: on input `[{system, "S"}]` the sequence still has one entry
(the system message remapped to role `user`, with the system prompt
prepended to its own content), although the input has zero non-system
messages. -/
theorem streamChat_system_not_removed :
    filteredMessages [⟨"system", "S"⟩] = [⟨"user", "S\n\nS"⟩] ∧
    (filteredMessages [⟨"system", "S"⟩]).length ≠ 0 := by
  constructor
  · rfl
  · decide

/-- C6 — `streamChat` passes the filtered sequence minus its last
element as history and the last element's content as the live prompt;
when the filtered sequence is empty the prompt is `""`. -/
theorem streamChat_history_and_prompt (msgs : List ChatMessage) :
    vendorHistory msgs = (filteredMessages msgs).dropLast ∧
    (∀ m, (filteredMessages msgs).getLast? = some m → vendorPrompt msgs = m.text) ∧
    (filteredMessages msgs = [] → vendorPrompt msgs = "") := by
  refine ⟨rfl, ?_, ?_⟩
  · intro m hm
    unfold vendorPrompt
    rw [hm]
    by_cases h : m.text = ""
    · simp [h]
    · simp [h]
  · intro h
    unfold vendorPrompt
    rw [h]
    rfl

/-- Witness for C6 at a concrete history. -/
theorem streamChat_history_and_prompt_witness :
    vendorHistory [⟨"user", "hi"⟩, ⟨"assistant", "yo"⟩] =
      (filteredMessages [⟨"user", "hi"⟩, ⟨"assistant", "yo"⟩]).dropLast ∧
    vendorPrompt [⟨"user", "hi"⟩, ⟨"assistant", "yo"⟩] = "yo" := by
  refine ⟨(streamChat_history_and_prompt _).1, ?_⟩
  exact (streamChat_history_and_prompt
    [⟨"user", "hi"⟩, ⟨"assistant", "yo"⟩]).2.1 ⟨"model", "yo"⟩ (by decide)

/-! ### Conversation store and `ChatService` -/

/-- A row of the `messages` table (`Message` entity): role, text content,
parent conversation (`conversation_id`), creation timestamp. -/
structure MessageRow where
  convId : String
  role : String
  content : String
  createdAt : Nat
deriving Repr, DecidableEq

/-- A row of the `conversations` table (`Conversation` entity), with the
owner (`user_id`) and the `updated_at` column. -/
structure ConversationRow where
  id : String
  userId : String
  updatedAt : Nat
deriving Repr, DecidableEq

/-- The persistent store seen by `ChatService`: conversation rows and
message rows. Message rows are kept in insertion order; `createdAt`
ticks increase along the list, so a `createdAt ASC` read is a filter. -/
structure Store where
  convs : List ConversationRow
  msgs : List MessageRow
deriving Repr, DecidableEq

/-- Service-level failures: `NotFoundException`, `BadRequestException`,
and the generic `Error('Gemini API failed: ...')` rethrown by the
adapter, each carrying its message string. -/
inductive ServiceError where
  | notFound (msg : String)
  | badRequest (msg : String)
  | provider (msg : String)
deriving Repr, DecidableEq

/-- `conversationRepo.findOne({where: {id, user: {id: userId}}})`. -/
def findConv (σ : Store) (cid uid : String) : Option ConversationRow :=
  σ.convs.find? (fun c => c.id == cid && c.userId == uid)

/-- `ChatService.saveMessage`: create and save a message row with the
given parent conversation, role and content, timestamped `t`. -/
def saveMessage (σ : Store) (cid role content : String) (t : Nat) : Store :=
  { σ with msgs := σ.msgs ++ [⟨cid, role, content, t⟩] }

/-- `conversation.updatedAt = new Date(); conversationRepo.save(...)`:
replace the row with the conversation's id, setting `updatedAt := t`. -/
def touchConv (σ : Store) (cid : String) (t : Nat) : Store :=
  { σ with convs := σ.convs.map (fun c =>
      if c.id == cid then { c with updatedAt := t } else c) }

/-- The adapter's observable behaviour for one turn, abstracting the
vendor: either it yields `chunks` and completes, or it yields `chunks`
and then raises the (already wrapped) error message `msg`. -/
inductive AdapterOutcome where
  | success (chunks : List String)
  | failure (chunks : List String) (msg : String)
deriving Repr, DecidableEq

/-- The observable result of driving `ChatService.streamResponse` to
its end: the fragments yielded in order, the terminal result, and the
final store. -/
structure StreamResult where
  yielded : List String
  result : Except ServiceError Unit
  store : Store
deriving Repr

/-- `ChatService.streamResponse(conversationId, userMessage, userId)`,
driven to completion with adapter behaviour `adapter` and start tick
`t`: verify ownership (else `NotFoundException` with no write), save the
user message, read the history (passed to the adapter, which is
abstracted by `adapter`), accumulate and yield each fragment, and on
completion save the assistant message (the accumulator) and bump the
conversation's `updatedAt`; on adapter failure the error propagates
with no further write. -/
def streamResponse (σ : Store) (cid userMessage uid : String) (t : Nat)
    (adapter : AdapterOutcome) : StreamResult :=
  match findConv σ cid uid with
  | none => ⟨[], .error (.notFound "Conversation not found"), σ⟩
  | some _ =>
    let σ1 := saveMessage σ cid "user" userMessage t
    match adapter with
    | .failure chunks emsg => ⟨chunks, .error (.provider emsg), σ1⟩
    | .success chunks =>
      let fullResponse := String.join chunks
      let σ2 := saveMessage σ1 cid "assistant" fullResponse (t + 1)
      let σ3 := touchConv σ2 cid (t + 2)
      ⟨chunks, .ok (), σ3⟩

/-- `ChatService.deleteConversation(conversationId, userId)`: verify
ownership (else `NotFoundException`), then `conversationRepo.remove`.
The `Message.conversation` relation in `message.entity.ts` configures
no cascade, so the remove deletes only the conversation row and leaves
the message rows in place. -/
def deleteConversation (σ : Store) (cid uid : String) :
    Except ServiceError String × Store :=
  match findConv σ cid uid with
  | none => (.error (.notFound "Conversation not found"), σ)
  | some conv =>
    (.ok "Conversation deleted successfully",
     { σ with convs := σ.convs.filter (fun c => c.id ≠ conv.id) })

/-- C3 — A successful turn of `streamResponse` persists an assistant
message whose content is exactly the concatenation, in emission order,
of the fragments yielded to the caller, and the conversation's
`updatedAt` is set to a tick strictly after the assistant message's
`createdAt` tick. -/
theorem streamResponse_success_turn (σ : Store) (cid um uid : String)
    (t : Nat) (chunks : List String) (conv : ConversationRow)
    (h : findConv σ cid uid = some conv) :
    (streamResponse σ cid um uid t (.success chunks)).result = .ok () ∧
    (streamResponse σ cid um uid t (.success chunks)).yielded = chunks ∧
    (streamResponse σ cid um uid t (.success chunks)).store.msgs =
      σ.msgs ++ [⟨cid, "user", um, t⟩,
        ⟨cid, "assistant",
          String.join (streamResponse σ cid um uid t (.success chunks)).yielded,
          t + 1⟩] ∧
    (∃ c ∈ (streamResponse σ cid um uid t (.success chunks)).store.convs,
      c.id = cid ∧ c.updatedAt = t + 2 ∧ t + 1 < c.updatedAt) := by
  have hp := List.find?_some h
  have hmem := List.mem_of_find?_eq_some h
  rw [Bool.and_eq_true, beq_iff_eq, beq_iff_eq] at hp
  refine ⟨?_, ?_, ?_, ?_⟩
  · simp [streamResponse, h]
  · simp [streamResponse, h]
  · simp [streamResponse, saveMessage, touchConv, h]
  · refine ⟨{ conv with updatedAt := t + 2 }, ?_, by simp [hp.1], rfl,
      Nat.lt_succ_self (t + 1)⟩
    simp only [streamResponse, h, touchConv, saveMessage]
    have : ({ conv with updatedAt := t + 2 } : ConversationRow) =
        (fun c => if c.id == cid then { c with updatedAt := t + 2 } else c) conv := by
      simp [hp.1]
    rw [this]
    exact List.mem_map_of_mem _ hmem

/-- Witness for C3: one conversation, two fragments. -/
theorem streamResponse_success_turn_witness :
    (streamResponse ⟨[⟨"c1", "u1", 0⟩], []⟩ "c1" "hi" "u1" 5
        (.success ["Hel", "lo"])).store.msgs =
      [⟨"c1", "user", "hi", 5⟩, ⟨"c1", "assistant", "Hello", 6⟩] ∧
    (∃ c ∈ (streamResponse ⟨[⟨"c1", "u1", 0⟩], []⟩ "c1" "hi" "u1" 5
        (.success ["Hel", "lo"])).store.convs,
      c.id = "c1" ∧ c.updatedAt = 7 ∧ 6 < c.updatedAt) := by
  have h := streamResponse_success_turn ⟨[⟨"c1", "u1", 0⟩], []⟩ "c1" "hi" "u1" 5
    ["Hel", "lo"] ⟨"c1", "u1", 0⟩ (by decide)
  refine ⟨?_, h.2.2.2⟩
  have h3 := h.2.2.1
  rw [h.2.1] at h3
  simpa using h3

/-- C4 — When no conversation with the given id is owned by the caller
(missing, or owned by someone else), both `streamResponse` and
`deleteConversation` fail with the same `NotFoundException` carrying
`"Conversation not found"`, the store is unchanged (in particular no
user message is persisted), and nothing is yielded. -/
theorem notFound_before_any_write (σ : Store) (cid um uid : String)
    (t : Nat) (adapter : AdapterOutcome)
    (h : ∀ c ∈ σ.convs, ¬(c.id = cid ∧ c.userId = uid)) :
    (streamResponse σ cid um uid t adapter).result =
      .error (.notFound "Conversation not found") ∧
    (streamResponse σ cid um uid t adapter).store = σ ∧
    (streamResponse σ cid um uid t adapter).yielded = [] ∧
    deleteConversation σ cid uid =
      (.error (.notFound "Conversation not found"), σ) := by
  have hfind : findConv σ cid uid = none := by
    unfold findConv
    rw [List.find?_eq_none]
    intro c hc
    simpa [Bool.and_eq_true, beq_iff_eq] using h c hc
  refine ⟨?_, ?_, ?_, ?_⟩ <;> simp [streamResponse, deleteConversation, hfind]

/-- Witness for C4, covering both failure shapes: an empty store
(conversation missing) and a store whose only conversation `"c1"` is
owned by `"u2"`, not the caller `"u1"`. -/
theorem notFound_before_any_write_witness :
    (streamResponse ⟨[], []⟩ "c1" "hi" "u1" 0 (.success ["x"])).store =
      (⟨[], []⟩ : Store) ∧
    (streamResponse ⟨[⟨"c1", "u2", 0⟩], []⟩ "c1" "hi" "u1" 0
        (.success ["x"])).result = .error (.notFound "Conversation not found") ∧
    (streamResponse ⟨[⟨"c1", "u2", 0⟩], []⟩ "c1" "hi" "u1" 0
        (.success ["x"])).store = (⟨[⟨"c1", "u2", 0⟩], []⟩ : Store) ∧
    deleteConversation ⟨[⟨"c1", "u2", 0⟩], []⟩ "c1" "u1" =
      (.error (.notFound "Conversation not found"), ⟨[⟨"c1", "u2", 0⟩], []⟩) := by
  have h1 := notFound_before_any_write ⟨[], []⟩ "c1" "hi" "u1" 0
    (.success ["x"]) (by intro c hc; simp at hc)
  have h2 := notFound_before_any_write ⟨[⟨"c1", "u2", 0⟩], []⟩ "c1" "hi" "u1" 0
    (.success ["x"]) (by intro c hc; simp at hc; subst hc; simp)
  exact ⟨h1.2.1, h2.1, h2.2.1, h2.2.2.2⟩

/-- C5 — A turn that passes the ownership check and then fails in the
adapter persists exactly one new message — the user message with the
submitted text — persists no assistant message, leaves the conversation
rows untouched, and propagates the adapter's error to the caller. -/
theorem streamResponse_adapter_failure (σ : Store) (cid um uid : String)
    (t : Nat) (chunks : List String) (emsg : String) (conv : ConversationRow)
    (h : findConv σ cid uid = some conv) :
    (streamResponse σ cid um uid t (.failure chunks emsg)).result =
      .error (.provider emsg) ∧
    (streamResponse σ cid um uid t (.failure chunks emsg)).store.msgs =
      σ.msgs ++ [⟨cid, "user", um, t⟩] ∧
    (streamResponse σ cid um uid t (.failure chunks emsg)).store.convs =
      σ.convs ∧
    (streamResponse σ cid um uid t (.failure chunks emsg)).yielded = chunks := by
  refine ⟨?_, ?_, ?_, ?_⟩ <;> simp [streamResponse, saveMessage, h]

/-- Witness for C5: the adapter yields one fragment and then fails. -/
theorem streamResponse_adapter_failure_witness :
    (streamResponse ⟨[⟨"c1", "u1", 0⟩], []⟩ "c1" "hi" "u1" 3
        (.failure ["par"] "Gemini API failed: quota")).result =
      .error (.provider "Gemini API failed: quota") ∧
    (streamResponse ⟨[⟨"c1", "u1", 0⟩], []⟩ "c1" "hi" "u1" 3
        (.failure ["par"] "Gemini API failed: quota")).store.msgs =
      [⟨"c1", "user", "hi", 3⟩] := by
  have h := streamResponse_adapter_failure ⟨[⟨"c1", "u1", 0⟩], []⟩ "c1" "hi" "u1" 3
    ["par"] "Gemini API failed: quota" ⟨"c1", "u1", 0⟩ (by decide)
  exact ⟨h.1, by simpa using h.2.1⟩

/-- C7 — `deleteConversation` does not remove the messages of the
deleted conversation: with one conversation `"c1"` (owned by `"u1"`)
holding one message, deleting it removes the conversation row but the
message row survives as an orphan, because the `Message.conversation`
relation configures no cascade. -/
theorem deleteConversation_leaves_orphans :
    deleteConversation ⟨[⟨"c1", "u1", 0⟩], [⟨"c1", "user", "hi", 1⟩]⟩ "c1" "u1" =
      (.ok "Conversation deleted successfully",
        ⟨[], [⟨"c1", "user", "hi", 1⟩]⟩) := by
  rfl

/-! ### `ChatController.streamMessage` (SSE loop)

The controller registers `req.on('close', ...)` to set a `clientClosed`
flag, then runs `for await (const chunk of streamResponse(...))` with
`if (clientClosed) break;` before each `pushChunk`. The single source of
nondeterminism is when the close event fires; it is modelled by
`closedAfter`, the number of fragments pushed before the flag is seen as
set. Operationally, at iteration `i` the loop pulls fragment `i` from
the generator (resuming `streamResponse`, which performs no store write
between its yields), then checks the flag: if `i < closedAfter` it
pushes the fragment, otherwise it breaks. Breaking out of `for await`
closes the async generator at its current `yield`, so the statements of
`streamResponse` after the loop (assistant save, `updatedAt` bump)
never run; the store stays at its state after the user-message save.
Control then falls through to `pushChunk({ done: true })`, which sits
inside the `try` after the loop, so a done frame is pushed even on a
break (and, on a break, a pending adapter error is never observed). If
`closedAfter ≥ chunks.length`, every fragment is pushed and the final
pull runs `streamResponse` to completion before the generator reports
done, so the post-loop writes happen even if the flag is set later. -/

/-- One SSE frame written by the controller: `{content}`, `{done:true}`
or `{error}`. -/
inductive Frame where
  | content (s : String)
  | done
  | error (s : String)
deriving Repr, DecidableEq

/-- Extract an error's message string, as `error.message` does. -/
def errMessage : ServiceError → String
  | .notFound m => m
  | .badRequest m => m
  | .provider m => m

/-- `ChatController.streamMessage`, composed with the generator
semantics of `streamResponse` (see the section comment): returns the
frames pushed to the response and the final store. -/
def streamMessage (σ : Store) (cid um uid : String) (t : Nat)
    (adapter : AdapterOutcome) (closedAfter : Nat) : List Frame × Store :=
  match findConv σ cid uid with
  | none => ([.error "Conversation not found"], σ)
  | some _ =>
    let σ1 := saveMessage σ cid "user" um t
    match adapter with
    | .failure chunks emsg =>
      if closedAfter < chunks.length then
        ((chunks.take closedAfter).map .content ++ [.done], σ1)
      else
        (chunks.map .content ++ [.error emsg], σ1)
    | .success chunks =>
      if closedAfter < chunks.length then
        ((chunks.take closedAfter).map .content ++ [.done], σ1)
      else
        (chunks.map .content ++ [.done],
         (streamResponse σ cid um uid t (.success chunks)).store)

/-- C9 — If the client disconnects while fragments are still being
forwarded (`closedAfter < chunks.length`), the controller breaks out of
the generator loop before completion: only the `closedAfter` fragments
pushed so far reach the client (followed by the unconditional done
frame after the loop), the assistant message is never persisted, and
the conversation rows (hence `updatedAt`) are untouched — only the
dangling user message was written. -/
theorem client_disconnect_aborts_turn (σ : Store) (cid um uid : String)
    (t : Nat) (chunks : List String) (conv : ConversationRow)
    (closedAfter : Nat)
    (hfound : findConv σ cid uid = some conv)
    (hclose : closedAfter < chunks.length) :
    (streamMessage σ cid um uid t (.success chunks) closedAfter).2.msgs =
      σ.msgs ++ [⟨cid, "user", um, t⟩] ∧
    (streamMessage σ cid um uid t (.success chunks) closedAfter).2.convs =
      σ.convs ∧
    (streamMessage σ cid um uid t (.success chunks) closedAfter).1 =
      (chunks.take closedAfter).map Frame.content ++ [Frame.done] := by
  refine ⟨?_, ?_, ?_⟩
  · simp [streamMessage, saveMessage, hfound, hclose]
  · simp [streamMessage, saveMessage, hfound, hclose]
  · simp [streamMessage, hfound, hclose]

/-- Witness for C9: two fragments, the client disconnects after the
first was pushed. -/
theorem client_disconnect_aborts_turn_witness :
    (streamMessage ⟨[⟨"c1", "u1", 0⟩], []⟩ "c1" "hi" "u1" 4
        (.success ["a", "b"]) 1).2.msgs = [⟨"c1", "user", "hi", 4⟩] ∧
    (streamMessage ⟨[⟨"c1", "u1", 0⟩], []⟩ "c1" "hi" "u1" 4
        (.success ["a", "b"]) 1).2.convs = [⟨"c1", "u1", 0⟩] ∧
    (streamMessage ⟨[⟨"c1", "u1", 0⟩], []⟩ "c1" "hi" "u1" 4
        (.success ["a", "b"]) 1).1 = [Frame.content "a", Frame.done] := by
  have h := client_disconnect_aborts_turn ⟨[⟨"c1", "u1", 0⟩], []⟩ "c1" "hi" "u1" 4
    ["a", "b"] ⟨"c1", "u1", 0⟩ 1 (by decide) (by decide)
  exact ⟨by simpa using h.1, by simpa using h.2.1, by simpa using h.2.2⟩

/-! ### `UsersService`: registration and account activation -/

/-- A row of the `users` table (`User` entity), restricted to the
columns `register` and `handleActivateAccount` touch. `code_expire`
(a `Date`) is modelled in milliseconds. -/
structure UserRow where
  id : String
  email : String
  password : String
  name : String
  is_active : Bool
  code_id : String
  code_expire : Nat
deriving Repr, DecidableEq

/-- The schema default of the `is_active` column:
`@Column({ default: true }) is_active` in `user.entity.ts`. -/
def isActiveDefault : Bool := true

/-- `dayjs().add(1, 'day')` relative to the instant `now`, in
milliseconds. -/
def oneDayMs : Nat := 86400000

/-- JS `String.prototype.padStart(n, c)`: left-pad with `c` up to
length `n`, returning the string unchanged when it is already at least
that long. -/
def padStart (s : String) (n : Nat) (c : Char) : String :=
  if n ≤ s.length then s
  else String.mk (List.replicate (n - s.length) c) ++ s

/-- The activation code of `UsersService.register`:
`String(Math.floor(Math.random() * 1000000)).padStart(6, '0')`, with
`r` standing for `Math.floor(Math.random() * 1000000)` (a natural
below 1000000, since `Math.random() < 1`). JS `String(r)` is the
decimal representation, i.e. `Nat.repr`. -/
def activationCode (r : Nat) : String :=
  padStart (Nat.repr r) 6 '0'

/-- `UsersService.register(registerDto)`: reject a duplicate email,
otherwise create the user with the hashed password, `is_active: false`,
a fresh activation code from `r`, and `code_expire` one day after
`now`. The mailer call has no effect on the store. `hash` abstracts
`hashPasswordHelper` (bcrypt) and `newId` the generated uuid. -/
def registerUser (users : List UserRow) (email password name : String)
    (hash : String → String) (newId : String) (r now : Nat) :
    Except ServiceError String × List UserRow :=
  if users.any (fun u => u.email == email) then
    (.error (.badRequest ("Email " ++ email ++ " already exists")), users)
  else
    (.ok newId,
     users ++ [{ id := newId, email := email, password := hash password,
                 name := name, is_active := false,
                 code_id := activationCode r,
                 code_expire := now + oneDayMs }])

/-- `userRepository.update(user_id, { is_active: true })`: set the
`is_active` column of the row keyed `uid`, touching nothing else. -/
def activateFlag (users : List UserRow) (uid : String) : List UserRow :=
  users.map (fun v => if v.id == uid then { v with is_active := true } else v)

/-- `UsersService.handleActivateAccount({user_id, code})` at wall-clock
instant `now`: `BadRequestException('User not found')` when no row has
the id, `'Invalid code'` on `user.code_id !== code`, `'Code expired'`
on `user.code_expire.getTime() < now`, otherwise flip `is_active`. -/
def handleActivateAccount (users : List UserRow) (uid code : String)
    (now : Nat) : Except ServiceError String × List UserRow :=
  match users.find? (fun u => u.id == uid) with
  | none => (.error (.badRequest "User not found"), users)
  | some u =>
    if u.code_id ≠ code then (.error (.badRequest "Invalid code"), users)
    else if u.code_expire < now then
      (.error (.badRequest "Code expired"), users)
    else (.ok u.id, activateFlag users uid)

/-- C8 — `handleActivateAccount`: every failing case leaves the user
rows (in particular the active flag) unchanged; the three failure cases
(user not found, code mismatch, code expired) raise pairwise distinct
errors; any attempt checked strictly after the stored expiry instant
fails; and on success only the `is_active` flag is set while the stored
code and expiry are untouched. -/
theorem handleActivateAccount_spec (users : List UserRow)
    (uid code : String) (now : Nat) :
    (∀ e, (handleActivateAccount users uid code now).1 = .error e →
      (handleActivateAccount users uid code now).2 = users) ∧
    (users.find? (fun u => u.id == uid) = none →
      (handleActivateAccount users uid code now).1 =
        .error (.badRequest "User not found")) ∧
    (∀ u, users.find? (fun u => u.id == uid) = some u → u.code_id ≠ code →
      (handleActivateAccount users uid code now).1 =
        .error (.badRequest "Invalid code")) ∧
    (∀ u, users.find? (fun u => u.id == uid) = some u → u.code_id = code →
      u.code_expire < now →
      (handleActivateAccount users uid code now).1 =
        .error (.badRequest "Code expired")) ∧
    (∀ u, users.find? (fun u => u.id == uid) = some u → u.code_expire < now →
      ∃ m, (handleActivateAccount users uid code now).1 =
        .error (.badRequest m)) ∧
    (∀ u, users.find? (fun u => u.id == uid) = some u → u.code_id = code →
      ¬u.code_expire < now →
      (handleActivateAccount users uid code now).1 = .ok u.id ∧
      (handleActivateAccount users uid code now).2 = activateFlag users uid ∧
      { u with is_active := true } ∈ activateFlag users uid ∧
      ({ u with is_active := true } : UserRow).code_id = u.code_id ∧
      ({ u with is_active := true } : UserRow).code_expire = u.code_expire) ∧
    ((ServiceError.badRequest "User not found" ≠ .badRequest "Invalid code") ∧
     (ServiceError.badRequest "User not found" ≠ .badRequest "Code expired") ∧
     (ServiceError.badRequest "Invalid code" ≠ .badRequest "Code expired")) := by
  refine ⟨?_, ?_, ?_, ?_, ?_, ?_, by decide, by decide, by decide⟩
  · intro e he
    unfold handleActivateAccount at he ⊢
    cases hfind : users.find? (fun u => u.id == uid) with
    | none => simp [hfind]
    | some u =>
      rw [hfind] at he
      by_cases h1 : u.code_id = code
      · by_cases h2 : u.code_expire < now
        · simp [h1, h2]
        · simp [h1, h2] at he
      · simp [h1]
  · intro hfind
    simp [handleActivateAccount, hfind]
  · intro u hfind h1
    simp [handleActivateAccount, hfind, h1]
  · intro u hfind h1 h2
    simp [handleActivateAccount, hfind, h1, h2]
  · intro u hfind h2
    by_cases h1 : u.code_id = code
    · exact ⟨"Code expired", by simp [handleActivateAccount, hfind, h1, h2]⟩
    · exact ⟨"Invalid code", by simp [handleActivateAccount, hfind, h1]⟩
  · intro u hfind h1 h2
    have hp := List.find?_some hfind
    rw [beq_iff_eq] at hp
    have hmem := List.mem_of_find?_eq_some hfind
    refine ⟨by simp [handleActivateAccount, hfind, h1, h2],
      by simp [handleActivateAccount, hfind, h1, h2], ?_, rfl, rfl⟩
    unfold activateFlag
    have : ({ u with is_active := true } : UserRow) =
        (fun v => if v.id == uid then { v with is_active := true } else v) u := by
      simp [hp]
    rw [this]
    exact List.mem_map_of_mem _ hmem

/-- Witness for C8: a user with stored code `"123456"` expiring at tick
100; at tick 200 activation fails with `Code expired` and the row is
unchanged, at tick 50 it succeeds. -/
theorem handleActivateAccount_spec_witness :
    (handleActivateAccount [⟨"u1", "e", "p", "n", false, "123456", 100⟩]
        "u1" "123456" 200).1 = .error (.badRequest "Code expired") ∧
    (handleActivateAccount [⟨"u1", "e", "p", "n", false, "123456", 100⟩]
        "u1" "123456" 200).2 =
      [⟨"u1", "e", "p", "n", false, "123456", 100⟩] ∧
    (handleActivateAccount [⟨"u1", "e", "p", "n", false, "123456", 100⟩]
        "u1" "123456" 50).1 = .ok "u1" := by
  have h200 := handleActivateAccount_spec
    [⟨"u1", "e", "p", "n", false, "123456", 100⟩] "u1" "123456" 200
  have h50 := handleActivateAccount_spec
    [⟨"u1", "e", "p", "n", false, "123456", 100⟩] "u1" "123456" 50
  have hexp := h200.2.2.2.1 ⟨"u1", "e", "p", "n", false, "123456", 100⟩
    (by rfl) (by rfl) (by decide)
  refine ⟨hexp, h200.1 _ hexp, ?_⟩
  exact (h50.2.2.2.2.2.1 ⟨"u1", "e", "p", "n", false, "123456", 100⟩
    (by rfl) (by rfl) (by decide)).1

/-- Every character emitted by `Nat.toDigitsCore` in base 10 on top of
an all-digit accumulator is a decimal digit. -/
lemma toDigitsCore_all_digits (f : Nat) :
    ∀ (n : Nat) (l : List Char), (∀ c ∈ l, c.isDigit = true) →
      ∀ c ∈ Nat.toDigitsCore 10 f n l, c.isDigit = true := by
  have hd : ∀ e < 10, (Nat.digitChar e).isDigit = true := by decide
  induction f with
  | zero =>
    intro n l hl
    simpa [Nat.toDigitsCore] using hl
  | succ f ih =>
    intro n l hl c hc
    by_cases hdiv : n / 10 = 0
    · simp only [Nat.toDigitsCore, hdiv, if_pos] at hc
      rcases List.mem_cons.mp hc with rfl | hc2
      · exact hd _ (Nat.mod_lt _ (by decide))
      · exact hl c hc2
    · simp only [Nat.toDigitsCore, hdiv, if_neg, not_false_iff] at hc
      refine ih (n / 10) _ ?_ c hc
      intro c2 hc2
      rcases List.mem_cons.mp hc2 with rfl | hc3
      · exact hd _ (Nat.mod_lt _ (by decide))
      · exact hl c2 hc3

/-- Every character of the decimal representation `Nat.repr n` is a
decimal digit. -/
lemma repr_all_digits (n : Nat) : ∀ c ∈ (Nat.repr n).data, c.isDigit = true := by
  intro c hc
  exact toDigitsCore_all_digits (n + 1) n [] (by intro c2 h; cases h) c hc

/-- `padStart` pads exactly up to the target length. -/
lemma padStart_length (s : String) (n : Nat) (c : Char) (h : s.length ≤ n) :
    (padStart s n c).length = n := by
  unfold padStart
  by_cases hle : n ≤ s.length
  · rw [if_pos hle]
    exact le_antisymm h hle
  · rw [if_neg hle, String.length_append, String.length_mk,
      List.length_replicate]
    omega

/-- Padding an all-digit string with `'0'` keeps every character a
digit. -/
lemma padStart_all_digits (s : String) (n : Nat)
    (hs : ∀ c ∈ s.data, c.isDigit = true) :
    ∀ c ∈ (padStart s n '0').data, c.isDigit = true := by
  unfold padStart
  by_cases hle : n ≤ s.length
  · rw [if_pos hle]
    exact hs
  · rw [if_neg hle]
    intro c hc
    have hdata : (String.mk (List.replicate (n - s.length) '0') ++ s).data =
        List.replicate (n - s.length) '0' ++ s.data := by
      cases s
      rfl
    rw [hdata] at hc
    rcases List.mem_append.mp hc with h | h
    · rw [List.eq_of_mem_replicate h]
      decide
    · exact hs c h

/-- C10 — For a non-duplicate registration, the user row appended by
`register` carries an activation code of exactly 6 decimal digits
(zero-padded), a code expiry of exactly one day after the registration
instant, and `is_active = false`, the opposite of the column's schema
default `true`. -/
theorem register_code_expiry_flag (users : List UserRow)
    (email password name : String) (hash : String → String) (newId : String)
    (r now : Nat) (hr : r < 1000000)
    (he : users.any (fun u => u.email == email) = false) :
    ∃ u : UserRow,
      (registerUser users email password name hash newId r now).2 =
        users ++ [u] ∧
      u.code_id = activationCode r ∧
      u.code_id.length = 6 ∧
      (∀ c ∈ u.code_id.data, c.isDigit = true) ∧
      u.code_expire = now + oneDayMs ∧
      u.is_active = false ∧
      u.is_active ≠ isActiveDefault := by
  have hlen : (Nat.repr r).length ≤ 6 :=
    Nat.repr_length r 6 (by norm_num) (by simpa using hr)
  refine ⟨{ id := newId, email := email, password := hash password,
            name := name, is_active := false, code_id := activationCode r,
            code_expire := now + oneDayMs }, ?_, rfl, ?_, ?_, rfl, rfl,
          Bool.false_ne_true⟩
  · simp [registerUser, he]
  · exact padStart_length _ 6 '0' hlen
  · exact padStart_all_digits _ 6 (repr_all_digits r)

/-- Witness for C10: registering into an empty user table with
`r = 7`. -/
theorem register_code_expiry_flag_witness :
    ∃ u : UserRow,
      (registerUser [] "a@b.c" "pw" "Al" (fun s => String.append "hashed-" s)
          "id1" 7 0).2 = [] ++ [u] ∧
      u.code_id = activationCode 7 ∧
      u.code_id.length = 6 ∧
      (∀ c ∈ u.code_id.data, c.isDigit = true) ∧
      u.code_expire = 0 + oneDayMs ∧
      u.is_active = false ∧
      u.is_active ≠ isActiveDefault :=
  register_code_expiry_flag [] "a@b.c" "pw" "Al"
    (fun s => String.append "hashed-" s) "id1" 7 0 (by decide) (by rfl)
